import Mathlib

/-!
Shallow embedding of the `cn_tester` firmware pair
(`src/mcu_firmwares/target_firmware/src/main.cpp`, which contains both the
Target stimulus-driver firmware and the Master/Controller test-sequencer
firmware) together with proofs of the behavioural properties stated in the
repository's specification.

Modelling conventions:
* Logic levels are `Bool` (`true` = `HIGH`, `false` = `LOW`).
* `millis()` timestamps are `Nat` milliseconds.  The 32-bit wraparound of
  `unsigned long` is not modelled: every property below concerns time spans
  far below `2^32` ms, where C unsigned subtraction and `Nat` subtraction on
  monotone timestamps agree.
* Serial output (`Serial.println`/`Serial.print` groups) and reset-line
  pulses are modelled as an event list `Ev` produced by each poll; LED
  writes are not observable by any claim and are omitted.
* One iteration of the Arduino `loop()` of the Master is one application of
  `Master.step` to the per-poll inputs (current `millis()`, an optionally
  available serial line, the raw button level, and the sampled level of each
  roster line).  Within one poll the C code reads the pins several times
  (count loop, diagnostic print, clear loop); the model samples them once
  per poll, which is the stated sampling model of the specification.
* The blocking `while (digitalRead(BUTTON_PIN) == LOW)` busy-waits mutate no
  state variable in the C code, so they have no counterpart in the state
  transition; they only stretch real time.
* `millis()` is read once per poll: the small drift caused by `delay()`
  calls inside one iteration (the reset pulse, the busy-waits) is folded
  into the next poll's `now`; every timing property below quantifies over
  arbitrary poll timestamps, so nothing depends on this abstraction.
* Arduino `String.trim`/`equalsIgnoreCase` are embedded at the character
  level (`trimStr`, `eqIgnoreCase`) because Lean's built-in `String.trim`
  and `String.toLower` are defined by well-founded recursion and do not
  reduce in the kernel.
-/

namespace CnTester

/-! ## Target firmware (stimulus driver) -/

namespace Target

/-- Observable events of the Target firmware: serial markers, roster-line
configuration/drive actions and blocking delays, in program order.  Roster
lines are identified by their index in `TEST_PINS`. -/
inductive Ev where
  | ready
  | pinModeOut (i : Nat)
  | drive (i : Nat) (level : Bool)
  | delayMs (ms : Nat)
  | allHighBegin
  | allHighOk
  | allLowBegin
  | allLowOk
  | seqBegin
  | seqAllOk
  | idleOk
deriving DecidableEq, Repr

/-- Number of roster lines (`NUM_TEST_PINS` on the Target side, the length
of its `TEST_PINS` array). -/
def NUM_TEST_PINS : Nat := 19

/-- `setAll(level)`: drive every test pin to `level`, in roster order. -/
def setAll (n : Nat) (level : Bool) : List Ev :=
  (List.range n).map (fun i => Ev.drive i level)

/-- Events of the Target `setup()` function, in program order.  The
`LED_STATUS_PIN` writes are omitted (that pin is not a roster line); the
explicit `VCC_CTRL_PIN` configuration is roster index 0. -/
def setupEvents (n : Nat) : List Ev :=
  [Ev.ready, Ev.pinModeOut 0, Ev.drive 0 false]
    ++ (List.range n).flatMap (fun i => [Ev.pinModeOut i, Ev.drive i false])
    ++ [Ev.allHighBegin] ++ setAll n true ++ [Ev.delayMs 1000, Ev.allHighOk]
    ++ [Ev.allLowBegin] ++ setAll n false ++ [Ev.delayMs 1000, Ev.allLowOk]
    ++ [Ev.seqBegin]
    ++ (List.range n).flatMap
        (fun i => [Ev.drive i true, Ev.delayMs 150, Ev.drive i false, Ev.delayMs 150])
    ++ [Ev.seqAllOk]

/-- Events of one iteration of the Target `loop()`: the idle heartbeat. -/
def loopEvents : List Ev := [Ev.idleOk]

/-- Events of a whole power cycle in which `loop()` ran `k` times: the
Arduino runtime executes `setup()` exactly once and then iterates
`loop()`. -/
def powerCycle (n k : Nat) : List Ev :=
  setupEvents n ++ (List.range k).flatMap (fun _ => loopEvents)

end Target

/-! ## Master firmware (test sequencer) -/

namespace Master

/-- `enum TestState` of the Master firmware. -/
inductive TestState where
  | waitButton
  | waitAllHigh
  | waitAllLow
  | sequence
  | success
  | fail
deriving DecidableEq, Repr

/-- Labels of the roster lines (`TEST_LABELS`), in roster order. -/
def TEST_LABELS : List String :=
  ["P1_07(VCC)", "P0_31", "P0_29", "P0_02", "P1_15", "P1_13", "P1_11",
   "P0_10", "P0_09", "P1_06", "P1_04", "P0_11", "P1_00", "P0_24", "P0_22",
   "P0_20", "P0_17", "P0_08", "P0_06"]

/-- `NUM_TEST_PINS` on the Master side. -/
def NUM_TEST_PINS : Nat := TEST_LABELS.length

/-- Timing parameters of the Master firmware (milliseconds). -/
def PRECHECK_TIMEOUT_MS : Nat := 3000

/-- `LOW_STAGE_TIMEOUT_MS` (wait for ALL_LOW). -/
def LOW_STAGE_TIMEOUT_MS : Nat := 3000

/-- `SEQUENCE_TIMEOUT_MS` (sequence stage total). -/
def SEQUENCE_TIMEOUT_MS : Nat := 15000

/-- `DEBOUNCE_MS` for the push button. -/
def DEBOUNCE_MS : Nat := 50

/-- Mutable globals of the Master firmware that the state machine reads or
writes.  (`LED` pin levels are omitted: no claim observes them.) -/
structure MasterState where
  state : TestState
  stateStartMs : Nat
  lastBlinkMs : Nat
  lastButtonEdgeMs : Nat
  lastButtonState : Bool
  expectedIndex : Nat
  pinWasHigh : List Bool
  precheckAllHighOk : Bool
  precheckAllLowOk : Bool
  startRequested : Bool
  beginAllHighPrinted : Bool
  beginAllLowPrinted : Bool
  beginSequencePrinted : Bool
  beginFailPrinted : Bool
deriving DecidableEq, Repr

/-- Per-poll inputs of one `loop()` iteration: current `millis()`, the
serial line read this poll (if `Serial.available()`), the raw button level
and the sampled logic level of each roster line. -/
structure Input where
  now : Nat
  serialLine : Option String
  button : Bool
  levels : List Bool
deriving Repr

/-- Observable events emitted by one `loop()` iteration of the Master, in
program order.  String payloads carry the diagnostic text the firmware
appends to the corresponding marker. -/
inductive Ev where
  | idleOk
  | startCmdReceived
  | flashCmdReceived
  | sentReset
  | startMarker
  | allHighBegin
  | allHighOk
  | allHighError (lowPins : String)
  | allLowBegin
  | allLowOk
  | allLowError (highPins : String)
  | seqBegin
  | seqOkPin (label : String)
  | seqErrMultiHigh (highPins : String)
  | seqErrOrder (expected received : String)
  | seqErrRepeated (label : String)
  | seqErrTimeoutExpected (label : String)
  | seqAllOk
  | successOk
  | failMarker
deriving DecidableEq, Repr

/-- `printDynamicPinsByLevel(level)`: the comma-joined labels, in roster
order, of the lines currently reading `level`. -/
def pinsByLevel (labels : List String) (levels : List Bool) (level : Bool) : String :=
  String.intercalate ", "
    (((labels.zip levels).filter (fun p => p.2 == level)).map (fun p => p.1))

/-- Lowercased character sequence of a string (ASCII case folding). -/
def lowerChars (s : String) : List Char := s.data.map Char.toLower

/-- `String.equalsIgnoreCase` of the Arduino core: character-by-character
case-insensitive comparison.  (Defined over the character list because
Lean's built-in `String.toLower` is not kernel-reducible.) -/
def eqIgnoreCase (a b : String) : Bool := lowerChars a == lowerChars b

/-- Characters of a string with surrounding whitespace removed. -/
def trimChars (l : List Char) : List Char :=
  ((l.dropWhile Char.isWhitespace).reverse.dropWhile Char.isWhitespace).reverse

/-- `String.trim` of the Arduino core: remove leading and trailing
whitespace.  (Defined over the character list because Lean's built-in
`String.trim` is not kernel-reducible.) -/
def trimStr (s : String) : String := String.mk (trimChars s.data)

/-- Host commands recognised by the Master. -/
inductive Cmd where
  | start
  | flash
deriving DecidableEq, Repr

/-- Command matching performed on a received serial line: trim surrounding
whitespace, then case-insensitive comparison against the fixed
vocabulary. -/
def parseCmd (raw : String) : Option Cmd :=
  let cmd := trimStr raw
  if eqIgnoreCase cmd "START" then some Cmd.start
  else if eqIgnoreCase cmd "FLASH" || eqIgnoreCase cmd "DFU" then some Cmd.flash
  else none

/-- Serial-command handling at the top of `loop()`: a `START` line sets the
`startRequested` latch; `FLASH`/`DFU` runs `enterFlashMode()` (its marker
followed by two `pulseReset()` pulses); other lines are ignored. -/
def handleSerial (line : Option String) (s : MasterState) : MasterState × List Ev :=
  match line with
  | none => (s, [])
  | some raw =>
    match parseCmd raw with
    | some Cmd.start => ({ s with startRequested := true }, [Ev.startCmdReceived])
    | some Cmd.flash => (s, [Ev.flashCmdReceived, Ev.sentReset, Ev.sentReset])
    | none => (s, [])

/-- Button handling with debouncing: record a raw edge, then report
`pressed` iff the raw level is LOW and the last edge is older than
`DEBOUNCE_MS`. -/
def handleButton (now : Nat) (btn : Bool) (s : MasterState) : MasterState × Bool :=
  let s1 := if btn != s.lastButtonState
            then { s with lastButtonEdgeMs := now, lastButtonState := btn }
            else s
  (s1, (btn == false) && decide (now - s1.lastButtonEdgeMs > DEBOUNCE_MS))

/-- Indices of the roster lines reading HIGH this poll, in roster order,
collected exactly as the count loop of `STATE_SEQUENCE` visits them. -/
def highIndicesAux : Nat → List Bool → List Nat
  | _, [] => []
  | i, l :: ls => (if l then [i] else []) ++ highIndicesAux (i + 1) ls

/-- Indices of the HIGH lines, starting the scan at roster position 0. -/
def highIndices (levels : List Bool) : List Nat := highIndicesAux 0 levels

/-- `highCount` of the `STATE_SEQUENCE` scan loop. -/
def countHigh (levels : List Bool) : Nat := (highIndices levels).length

/-- `highIdx` of the `STATE_SEQUENCE` scan loop: the last HIGH index (the
loop overwrites it); the C sentinel `-1` is never read when no line is
HIGH, so any default works. -/
def highIdx (levels : List Bool) : Nat := (highIndices levels).getLastD 0

/-- State-machine body of `loop()` (the `switch (state)` statement),
evaluated after serial and button handling.  `n` is `NUM_TEST_PINS`,
`labels` is `TEST_LABELS`. -/
def stepCore (n : Nat) (labels : List String) (s : MasterState) (now : Nat)
    (pressed : Bool) (levels : List Bool) : MasterState × List Ev :=
  match s.state with
  | TestState.waitButton =>
    let s1 := if now - s.lastBlinkMs ≥ 500 then { s with lastBlinkMs := now } else s
    let ev1 : List Ev := if now - s.lastBlinkMs ≥ 500 then [Ev.idleOk] else []
    if pressed || s1.startRequested then
      ({ s1 with
          startRequested := false
          precheckAllHighOk := false
          precheckAllLowOk := false
          expectedIndex := 0
          pinWasHigh := List.replicate n false
          beginAllHighPrinted := false
          beginFailPrinted := false
          state := TestState.waitAllHigh
          stateStartMs := now },
        ev1 ++ [Ev.startMarker, Ev.sentReset])
    else (s1, ev1)
  | TestState.waitAllHigh =>
    let s1 := if s.beginAllHighPrinted then s else { s with beginAllHighPrinted := true }
    let ev1 : List Ev := if s.beginAllHighPrinted then [] else [Ev.allHighBegin]
    if levels.all (fun l => l == true) then
      ({ s1 with
          precheckAllHighOk := true
          beginAllLowPrinted := false
          state := TestState.waitAllLow
          stateStartMs := now },
        ev1 ++ [Ev.allHighOk])
    else if now - s1.stateStartMs > PRECHECK_TIMEOUT_MS then
      ({ s1 with
          beginAllLowPrinted := false
          state := TestState.waitAllLow
          stateStartMs := now },
        ev1 ++ [Ev.allHighError (pinsByLevel labels levels false)])
    else (s1, ev1)
  | TestState.waitAllLow =>
    let s1 := if s.beginAllLowPrinted then s else { s with beginAllLowPrinted := true }
    let ev1 : List Ev := if s.beginAllLowPrinted then [] else [Ev.allLowBegin]
    if levels.all (fun l => l == false) then
      ({ s1 with
          precheckAllLowOk := true
          beginSequencePrinted := false
          state := TestState.sequence
          stateStartMs := now },
        ev1 ++ [Ev.allLowOk])
    else if now - s1.stateStartMs > LOW_STAGE_TIMEOUT_MS then
      ({ s1 with
          beginSequencePrinted := false
          state := TestState.sequence
          stateStartMs := now },
        ev1 ++ [Ev.allLowError (pinsByLevel labels levels true)])
    else (s1, ev1)
  | TestState.sequence =>
    let s1 := if s.beginSequencePrinted then s else { s with beginSequencePrinted := true }
    let ev1 : List Ev := if s.beginSequencePrinted then [] else [Ev.seqBegin]
    if countHigh levels > 1 then
      ({ s1 with state := TestState.fail, stateStartMs := now },
        ev1 ++ [Ev.seqErrMultiHigh (pinsByLevel labels levels true)])
    else
      let r : MasterState × List Ev × Bool :=
        if countHigh levels = 1 then
          let hi := highIdx levels
          if s1.pinWasHigh.getD hi false then (s1, [], false)
          else
            let s2 := { s1 with pinWasHigh := s1.pinWasHigh.set hi true }
            if hi = s2.expectedIndex then
              if s2.expectedIndex + 1 = n then
                ({ s2 with
                    expectedIndex := s2.expectedIndex + 1
                    state := TestState.success
                    stateStartMs := now },
                  [Ev.seqOkPin (labels.getD hi ""), Ev.seqAllOk], true)
              else
                ({ s2 with expectedIndex := s2.expectedIndex + 1 },
                  [Ev.seqOkPin (labels.getD hi "")], false)
            else if hi > s2.expectedIndex then
              ({ s2 with state := TestState.fail, stateStartMs := now },
                [Ev.seqOkPin (labels.getD hi ""),
                 Ev.seqErrOrder (labels.getD s2.expectedIndex "") (labels.getD hi "")],
                true)
            else
              ({ s2 with state := TestState.fail, stateStartMs := now },
                [Ev.seqOkPin (labels.getD hi ""),
                 Ev.seqErrRepeated (labels.getD hi "")], true)
        else
          ({ s1 with
              pinWasHigh :=
                List.zipWith (fun lvl w => if lvl then w else false) levels s1.pinWasHigh },
            [], false)
      if r.2.2 then (r.1, ev1 ++ r.2.1)
      else if now - r.1.stateStartMs > SEQUENCE_TIMEOUT_MS then
        ({ r.1 with state := TestState.fail, stateStartMs := now },
          ev1 ++ r.2.1 ++
            [Ev.seqErrTimeoutExpected
              (if r.1.expectedIndex < n then labels.getD r.1.expectedIndex "" else "end")])
      else (r.1, ev1 ++ r.2.1)
  | TestState.success =>
    ({ s with state := TestState.waitButton, stateStartMs := now }, [Ev.successOk])
  | TestState.fail =>
    let s1 := if s.beginFailPrinted then s else { s with beginFailPrinted := true }
    let ev1 : List Ev := if s.beginFailPrinted then [] else [Ev.failMarker]
    let s2 := if now - s1.lastBlinkMs ≥ 150 then { s1 with lastBlinkMs := now } else s1
    if pressed || s2.startRequested then
      ({ s2 with
          startRequested := false
          expectedIndex := 0
          pinWasHigh := List.replicate n false
          precheckAllHighOk := false
          precheckAllLowOk := false
          beginAllHighPrinted := false
          beginAllLowPrinted := false
          beginSequencePrinted := false
          beginFailPrinted := false
          state := TestState.waitAllHigh
          stateStartMs := now },
        ev1 ++ [Ev.startMarker, Ev.sentReset])
    else (s2, ev1)

/-- One full `loop()` iteration: serial handling, button handling, then the
state machine. -/
def step (n : Nat) (labels : List String) (s : MasterState) (inp : Input) :
    MasterState × List Ev :=
  let p1 := handleSerial inp.serialLine s
  let p2 := handleButton inp.now inp.button p1.1
  let p3 := stepCore n labels p2.1 inp.now p2.2 inp.levels
  (p3.1, p1.2 ++ p3.2)

/-- State of the Master right after `setup()` finished (the power-up call
of `toState(STATE_WAIT_BUTTON)`); `setup()`'s `millis()` is taken as 0. -/
def initState (n : Nat) : MasterState :=
  { state := TestState.waitButton
    stateStartMs := 0
    lastBlinkMs := 0
    lastButtonEdgeMs := 0
    lastButtonState := true
    expectedIndex := 0
    pinWasHigh := List.replicate n false
    precheckAllHighOk := false
    precheckAllLowOk := false
    startRequested := false
    beginAllHighPrinted := false
    beginAllLowPrinted := false
    beginSequencePrinted := false
    beginFailPrinted := false }

/-- Iterate `step` over a list of per-poll inputs, collecting all emitted
events. -/
def run (n : Nat) (labels : List String) (s : MasterState) :
    List Input → MasterState × List Ev
  | [] => (s, [])
  | inp :: rest =>
    let p := step n labels s inp
    let q := run n labels p.1 rest
    (q.1, p.2 ++ q.2)

/-- States reached after each poll of a run (the post-state of every
iteration, in order). -/
def visited (n : Nat) (labels : List String) : MasterState → List Input → List MasterState
  | _, [] => []
  | s, inp :: rest =>
    let s1 := (step n labels s inp).1
    s1 :: visited n labels s1 rest

end Master

end CnTester

/-! ## Helper definitions for the proofs -/

namespace CnTester

namespace Target

/-- Stimulus script written from the specification's §4.1 wording, for
comparison with the embedding of `setup()`: drive all lines high between a
begin marker and an ok marker around a 1000 ms hold, then all low likewise,
then pulse each line in roster order (150 ms high, 150 ms low) with one
begin marker before the first pulse and one all-ok marker after the last. -/
def specScript (n : Nat) : List Ev :=
  ([Ev.allHighBegin] ++ (List.range n).map (fun i => Ev.drive i true)
      ++ [Ev.delayMs 1000, Ev.allHighOk])
    ++ ([Ev.allLowBegin] ++ (List.range n).map (fun i => Ev.drive i false)
      ++ [Ev.delayMs 1000, Ev.allLowOk])
    ++ ([Ev.seqBegin]
      ++ (List.range n).flatMap
          (fun i => [Ev.drive i true, Ev.delayMs 150, Ev.drive i false, Ev.delayMs 150])
      ++ [Ev.seqAllOk])

end Target

namespace Master

/-- Whether the poll's serial line sets the `startRequested` latch. -/
def serialLatch (l : Option String) : Bool :=
  match l with
  | some raw => parseCmd raw == some Cmd.start
  | none => false

/-- Events emitted by the serial-command handling of one poll. -/
def serialEvs (l : Option String) : List Ev :=
  match l with
  | none => []
  | some raw =>
    match parseCmd raw with
    | some Cmd.start => [Ev.startCmdReceived]
    | some Cmd.flash => [Ev.flashCmdReceived, Ev.sentReset, Ev.sentReset]
    | none => []

/-- Value of `lastButtonEdgeMs` after the button handling of one poll. -/
def edgeMs (inp : Input) (s : MasterState) : Nat :=
  if inp.button != s.lastButtonState then inp.now else s.lastButtonEdgeMs

/-- Value of the `pressed` flag computed by one poll. -/
def pressedOf (inp : Input) (s : MasterState) : Bool :=
  (inp.button == false) && decide (inp.now - edgeMs inp s > DEBOUNCE_MS)

/-- State after the serial and button handling of one poll, before the
`switch (state)`. -/
def preState (inp : Input) (s : MasterState) : MasterState :=
  { s with
      startRequested := s.startRequested || serialLatch inp.serialLine
      lastButtonEdgeMs := edgeMs inp s
      lastButtonState := inp.button }

theorem handleSerial_eq (l : Option String) (s : MasterState) :
    handleSerial l s
      = ({ s with startRequested := s.startRequested || serialLatch l }, serialEvs l) := by
  match l with
  | none => simp [handleSerial, serialLatch, serialEvs]
  | some raw =>
    simp only [handleSerial, serialLatch, serialEvs]
    match h : parseCmd raw with
    | none => simp
    | some Cmd.start => simp
    | some Cmd.flash => simp [show (Cmd.flash == Cmd.start) = false from rfl]

theorem handleButton_eq (now : Nat) (b : Bool) (s : MasterState) :
    handleButton now b s
      = ({ s with
            lastButtonEdgeMs := if b != s.lastButtonState then now else s.lastButtonEdgeMs
            lastButtonState := b },
         (b == false) &&
           decide (now - (if b != s.lastButtonState then now else s.lastButtonEdgeMs)
                     > DEBOUNCE_MS)) := by
  simp only [handleButton]
  by_cases h : b = s.lastButtonState
  · subst h; simp
  · simp [h]

theorem step_eq (n : Nat) (labels : List String) (s : MasterState) (inp : Input) :
    step n labels s inp
      = ((stepCore n labels (preState inp s) inp.now (pressedOf inp s) inp.levels).1,
         serialEvs inp.serialLine
           ++ (stepCore n labels (preState inp s) inp.now (pressedOf inp s) inp.levels).2) := by
  simp only [step, handleSerial_eq, handleButton_eq, preState, pressedOf, edgeMs]

end Master

end CnTester

namespace CnTester

theorem flatMap_const_singleton {α : Type} (k : Nat) (e : α) :
    (List.range k).flatMap (fun _ => [e]) = List.replicate k e := by
  induction k with
  | zero => simp
  | succ m ih =>
    rw [List.range_succ, List.flatMap_append, ih, List.replicate_succ']
    simp

namespace Master

theorem all_eq_true_replicate (n : Nat) :
    ((List.replicate n true).all (fun l => l == true)) = true := by
  induction n with
  | zero => simp
  | succ m ih => simp [List.replicate_succ, ih]

theorem all_eq_false_replicate (n : Nat) :
    ((List.replicate n false).all (fun l => l == false)) = true := by
  induction n with
  | zero => simp
  | succ m ih => simp [List.replicate_succ, ih]

theorem getD_replicate_false (n i : Nat) :
    (List.replicate n false).getD i false = false := by
  induction n generalizing i with
  | zero => simp [List.getD]
  | succ m ih =>
    match i with
    | 0 => simp [List.replicate_succ]
    | j + 1 => simp [List.replicate_succ, ih j]

theorem replicate_false_set (n i : Nat) (h : i < n) :
    (List.replicate n false).set i true
      = List.replicate i false ++ true :: List.replicate (n - i - 1) false := by
  induction i generalizing n with
  | zero =>
    match n, h with
    | m + 1, _ => simp [List.replicate_succ]
  | succ j ih =>
    match n, h with
    | m + 1, h =>
      have hj : j < m := by omega
      simp only [List.replicate_succ, List.set_cons_succ, ih m hj]
      simp [Nat.succ_sub_one]

theorem highIndicesAux_append (k : Nat) (xs ys : List Bool) :
    highIndicesAux k (xs ++ ys)
      = highIndicesAux k xs ++ highIndicesAux (k + xs.length) ys := by
  induction xs generalizing k with
  | nil => simp [highIndicesAux]
  | cons x xs ih =>
    simp only [List.cons_append, highIndicesAux, List.length_cons, List.append_eq]
    rw [ih (k + 1)]
    have h2 : k + 1 + xs.length = k + (xs.length + 1) := by omega
    rw [h2, List.append_assoc]

theorem highIndicesAux_replicate_false (k m : Nat) :
    highIndicesAux k (List.replicate m false) = [] := by
  induction m generalizing k with
  | zero => simp [highIndicesAux]
  | succ j ih => simp [List.replicate_succ, highIndicesAux, ih (k + 1)]

theorem highIndices_replicate_false (n : Nat) :
    highIndices (List.replicate n false) = [] :=
  highIndicesAux_replicate_false 0 n

theorem highIndices_pulse (n i : Nat) (h : i < n) :
    highIndices ((List.replicate n false).set i true) = [i] := by
  rw [replicate_false_set n i h]
  unfold highIndices
  rw [highIndicesAux_append]
  simp [highIndicesAux, highIndicesAux_replicate_false, List.length_replicate]

theorem countHigh_replicate_false (n : Nat) :
    countHigh (List.replicate n false) = 0 := by
  simp [countHigh, highIndices_replicate_false]

theorem zipWith_and_replicate_false (n : Nat) (ws : List Bool) :
    List.zipWith (fun lvl w => lvl && w) (List.replicate n false) ws
      = List.replicate (min n ws.length) false := by
  induction n generalizing ws with
  | zero => simp
  | succ m ih =>
    match ws with
    | [] => simp
    | w :: ws =>
      simp only [List.replicate_succ, List.zipWith_cons_cons, ih ws, List.length_cons]
      have : min (m + 1) (ws.length + 1) = min m ws.length + 1 := by omega
      rw [this, List.replicate_succ]
      simp

theorem zipWith_clear_replicate_false (n : Nat) (ws : List Bool) :
    List.zipWith (fun lvl w => if lvl then w else false) (List.replicate n false) ws
      = List.replicate (min n ws.length) false := by
  induction n generalizing ws with
  | zero => simp
  | succ m ih =>
    match ws with
    | [] => simp
    | w :: ws =>
      simp only [List.replicate_succ, List.zipWith_cons_cons, ih ws, List.length_cons]
      have : min (m + 1) (ws.length + 1) = min m ws.length + 1 := by omega
      rw [this, List.replicate_succ]
      simp

end Master

/-! ## C9: the Target stimulus driver's scripted behaviour -/

/-- C9: on power-up the Target emits its readiness marker, configures every
roster line as an output at logic low, then executes the three-stage
stimulus script exactly once and in order (all-high with begin/ok markers
around a 1000 ms hold, all-low likewise, then one 150 ms high / 150 ms low
pulse per line in roster order between one begin marker and one all-ok
marker); afterwards, for any number `k` of further `loop()` iterations, it
emits only the periodic idle heartbeat with no further side effects — the
script never re-runs, and the model takes no input that could trigger it. -/
theorem c9_target_power_cycle (n k : Nat) :
    Target.powerCycle n k
      = [Target.Ev.ready]
          ++ ([Target.Ev.pinModeOut 0, Target.Ev.drive 0 false]
                ++ (List.range n).flatMap
                    (fun i => [Target.Ev.pinModeOut i, Target.Ev.drive i false]))
          ++ Target.specScript n
          ++ List.replicate k Target.Ev.idleOk := by
  simp [Target.powerCycle, Target.setupEvents, Target.specScript, Target.setAll,
        Target.loopEvents, flatMap_const_singleton]

end CnTester

namespace CnTester

namespace Master

theorem parseCmd_flash_of (raw : String)
    (h : eqIgnoreCase (trimStr raw) "FLASH" = true
         ∨ eqIgnoreCase (trimStr raw) "DFU" = true) :
    parseCmd raw = some Cmd.flash := by
  rcases h with h | h <;>
  · have hne : eqIgnoreCase (trimStr raw) "START" = false := by
      simp only [eqIgnoreCase, beq_iff_eq] at h ⊢
      rw [h]; decide
    simp [parseCmd, hne, h]

end Master

/-! ## C2, C3, C4, C8: single-poll properties of the Master -/

open Master in
/-- C2: on a poll in the Sequence stage, more than one line high yields the
multi-high error marker (listing the offending lines) and a transition to
Fail on that same poll; a single newly observed high on line `i` (its
"was high" flag clear) with `i` greater than the cursor yields the
ordering-violation error naming the expected and received labels and a
transition to Fail; with `i` less than the cursor it yields the
repeated/early-raise error naming line `i` and a transition to Fail. -/
theorem c2_sequence_fault_detection (n : Nat) (labels : List String)
    (s : MasterState) (inp : Input) (hs : s.state = TestState.sequence) :
    (countHigh inp.levels > 1 →
      (step n labels s inp).1.state = TestState.fail ∧
      Ev.seqErrMultiHigh (pinsByLevel labels inp.levels true)
        ∈ (step n labels s inp).2) ∧
    (∀ i, highIndices inp.levels = [i] → s.pinWasHigh.getD i false = false →
      i > s.expectedIndex →
      (step n labels s inp).1.state = TestState.fail ∧
      Ev.seqErrOrder (labels.getD s.expectedIndex "") (labels.getD i "")
        ∈ (step n labels s inp).2) ∧
    (∀ i, highIndices inp.levels = [i] → s.pinWasHigh.getD i false = false →
      i < s.expectedIndex →
      (step n labels s inp).1.state = TestState.fail ∧
      Ev.seqErrRepeated (labels.getD i "") ∈ (step n labels s inp).2) := by
  refine ⟨fun hcnt => ?_, fun i hhi hflag hgt => ?_, fun i hhi hflag hlt => ?_⟩ <;>
    (rw [step_eq]; simp only [stepCore, preState]; simp only [hs])
  · rw [if_pos hcnt]
    simp
  · have hne : ¬ i = s.expectedIndex := by omega
    by_cases hb : s.beginSequencePrinted <;>
      simp_all [countHigh, highIdx, hhi, hne, hgt]
  · have hne : ¬ i = s.expectedIndex := by omega
    have hngt : ¬ s.expectedIndex < i := by omega
    by_cases hb : s.beginSequencePrinted <;>
      simp_all [countHigh, highIdx, hhi, hne, if_neg hngt]

open Master in
/-- C3: when the elapsed time in Sequence exceeds `SEQUENCE_TIMEOUT_MS`
(15000 ms) on a poll whose level sample does not itself end the stage (at
most one line high, and any high line already marked as observed), the
machine emits the timeout error naming the label at the cursor position
(or "end" when the cursor equals `n`) and transitions to Fail. -/
theorem c3_sequence_timeout (n : Nat) (labels : List String)
    (s : MasterState) (inp : Input) (hs : s.state = TestState.sequence)
    (hcnt : countHigh inp.levels ≤ 1)
    (hstale : ∀ i ∈ highIndices inp.levels, s.pinWasHigh.getD i false = true)
    (ht : inp.now - s.stateStartMs > SEQUENCE_TIMEOUT_MS) :
    (step n labels s inp).1.state = TestState.fail ∧
    Ev.seqErrTimeoutExpected
        (if s.expectedIndex < n then labels.getD s.expectedIndex "" else "end")
      ∈ (step n labels s inp).2 := by
  rw [step_eq]; simp only [stepCore, preState]; simp only [hs]
  by_cases h1 : countHigh inp.levels = 1
  · obtain ⟨i, hi⟩ := List.length_eq_one.mp (by simpa [countHigh] using h1)
    have hst := hstale i (by simp [hi])
    simp_all [countHigh, highIdx, hi]
  · have h0 : countHigh inp.levels = 0 := by omega
    simp_all [h0]

open Master in
/-- C4: if AwaitAllHigh times out after `PRECHECK_TIMEOUT_MS` (3000 ms)
without all lines high, the machine emits the error marker carrying the
comma-joined labels, in roster order, of every line currently low, and
still transitions to AwaitAllLow; symmetrically, if AwaitAllLow times out
after `LOW_STAGE_TIMEOUT_MS` (3000 ms) it emits the error marker listing
every line currently high and still transitions to Sequence.  No precheck
timeout aborts the run. -/
theorem c4_precheck_timeout_degrades (n : Nat) (labels : List String)
    (s : MasterState) (inp : Input) :
    (s.state = TestState.waitAllHigh →
      (inp.levels.all (fun l => l == true)) = false →
      inp.now - s.stateStartMs > PRECHECK_TIMEOUT_MS →
      (step n labels s inp).1.state = TestState.waitAllLow ∧
      Ev.allHighError (pinsByLevel labels inp.levels false)
        ∈ (step n labels s inp).2) ∧
    (s.state = TestState.waitAllLow →
      (inp.levels.all (fun l => l == false)) = false →
      inp.now - s.stateStartMs > LOW_STAGE_TIMEOUT_MS →
      (step n labels s inp).1.state = TestState.sequence ∧
      Ev.allLowError (pinsByLevel labels inp.levels true)
        ∈ (step n labels s inp).2) := by
  refine ⟨fun hs hnot ht => ?_, fun hs hnot ht => ?_⟩ <;>
    (rw [step_eq]; simp only [stepCore, preState]; simp only [hs]) <;>
    (split <;> simp_all)

open Master in
/-- C8: a serial line that trims and lowercases to `flash` or `dfu`,
received on any poll and in any state, immediately prepends the flash
marker and the double reset pulse to the poll's output and changes nothing
else: the resulting state (stage, cursor, per-line flags, begin-printed
flags, start latch) is exactly the state the same poll would produce with
no serial line available. -/
theorem c8_flash_command (n : Nat) (labels : List String) (s : MasterState)
    (inp : Input) (raw : String) (hline : inp.serialLine = some raw)
    (hcmd : eqIgnoreCase (trimStr raw) "FLASH" = true
            ∨ eqIgnoreCase (trimStr raw) "DFU" = true) :
    (step n labels s inp).1 = (step n labels s { inp with serialLine := none }).1 ∧
    (step n labels s inp).2
      = Ev.flashCmdReceived :: Ev.sentReset :: Ev.sentReset ::
          (step n labels s { inp with serialLine := none }).2 := by
  have hp := parseCmd_flash_of raw hcmd
  rw [step_eq, step_eq]
  constructor
  · simp [preState, serialLatch, pressedOf, edgeMs, hline, hp,
          show (some Cmd.flash == some Cmd.start) = false from by decide]
  · simp [serialEvs, serialLatch, preState, pressedOf, edgeMs, hline, hp,
          show (some Cmd.flash == some Cmd.start) = false from by decide]

end CnTester

namespace CnTester

namespace Master

/-- Probe state in the Sequence stage with the cursor at 1, used to
instantiate the Sequence-stage theorems. -/
def seqProbeState : MasterState :=
  { initState 19 with
      state := TestState.sequence, expectedIndex := 1, beginSequencePrinted := true }

/-- Quiet poll input carrying a given level sample. -/
def probeInput (levels : List Bool) : Input :=
  { now := 0, serialLine := none, button := true, levels := levels }

/-- Two lines high at once. -/
def multiLevels : List Bool := ((List.replicate 19 false).set 0 true).set 1 true

/-- Only line 2 high (ahead of cursor 1). -/
def orderLevels : List Bool := (List.replicate 19 false).set 2 true

/-- Only line 0 high (behind cursor 1). -/
def repeatLevels : List Bool := (List.replicate 19 false).set 0 true

/-- Sequence-stage state stuck at cursor 3 (of 19). -/
def c3ProbeState : MasterState :=
  { initState 19 with
      state := TestState.sequence, expectedIndex := 3, beginSequencePrinted := true }

/-- All-low poll arriving after the 15000 ms sequence timeout. -/
def c3ProbeInput : Input :=
  { now := 15001, serialLine := none, button := true, levels := List.replicate 19 false }

end Master

open Master in
theorem c2_sequence_fault_detection_witness :
    ((step 19 TEST_LABELS seqProbeState (probeInput multiLevels)).1.state = TestState.fail ∧
      Ev.seqErrMultiHigh (pinsByLevel TEST_LABELS multiLevels true)
        ∈ (step 19 TEST_LABELS seqProbeState (probeInput multiLevels)).2) ∧
    ((step 19 TEST_LABELS seqProbeState (probeInput orderLevels)).1.state = TestState.fail ∧
      Ev.seqErrOrder (TEST_LABELS.getD 1 "") (TEST_LABELS.getD 2 "")
        ∈ (step 19 TEST_LABELS seqProbeState (probeInput orderLevels)).2) ∧
    ((step 19 TEST_LABELS seqProbeState (probeInput repeatLevels)).1.state = TestState.fail ∧
      Ev.seqErrRepeated (TEST_LABELS.getD 0 "")
        ∈ (step 19 TEST_LABELS seqProbeState (probeInput repeatLevels)).2) :=
  ⟨(c2_sequence_fault_detection 19 TEST_LABELS seqProbeState (probeInput multiLevels)
      (by decide)).1 (by decide),
   (c2_sequence_fault_detection 19 TEST_LABELS seqProbeState (probeInput orderLevels)
      (by decide)).2.1 2 (by decide) (by decide) (by decide),
   (c2_sequence_fault_detection 19 TEST_LABELS seqProbeState (probeInput repeatLevels)
      (by decide)).2.2 0 (by decide) (by decide) (by decide)⟩

open Master in
theorem c3_sequence_timeout_witness :
    (step 19 TEST_LABELS c3ProbeState c3ProbeInput).1.state = TestState.fail ∧
    Ev.seqErrTimeoutExpected
        (if c3ProbeState.expectedIndex < 19
         then TEST_LABELS.getD c3ProbeState.expectedIndex "" else "end")
      ∈ (step 19 TEST_LABELS c3ProbeState c3ProbeInput).2 ∧
    (if c3ProbeState.expectedIndex < 19
     then TEST_LABELS.getD c3ProbeState.expectedIndex "" else "end") = "P0_02" :=
  have h := c3_sequence_timeout 19 TEST_LABELS c3ProbeState c3ProbeInput
    (by decide) (by decide) (by decide) (by decide)
  ⟨h.1, h.2, by decide⟩

open Master in
theorem c4_precheck_timeout_degrades_witness :
    ((step 3 ["a", "b", "c"] { initState 3 with state := TestState.waitAllHigh }
        { now := 3001, serialLine := none, button := true,
          levels := [true, false, false] }).1.state = TestState.waitAllLow ∧
      Ev.allHighError (pinsByLevel ["a", "b", "c"] [true, false, false] false)
        ∈ (step 3 ["a", "b", "c"] { initState 3 with state := TestState.waitAllHigh }
            { now := 3001, serialLine := none, button := true,
              levels := [true, false, false] }).2) ∧
    ((step 3 ["a", "b", "c"] { initState 3 with state := TestState.waitAllLow }
        { now := 3001, serialLine := none, button := true,
          levels := [false, true, true] }).1.state = TestState.sequence ∧
      Ev.allLowError (pinsByLevel ["a", "b", "c"] [false, true, true] true)
        ∈ (step 3 ["a", "b", "c"] { initState 3 with state := TestState.waitAllLow }
            { now := 3001, serialLine := none, button := true,
              levels := [false, true, true] }).2) ∧
    pinsByLevel ["a", "b", "c"] [true, false, false] false = "b, c" :=
  ⟨(c4_precheck_timeout_degrades 3 ["a", "b", "c"]
      { initState 3 with state := TestState.waitAllHigh }
      { now := 3001, serialLine := none, button := true,
        levels := [true, false, false] }).1 (by decide) (by decide) (by decide),
   (c4_precheck_timeout_degrades 3 ["a", "b", "c"]
      { initState 3 with state := TestState.waitAllLow }
      { now := 3001, serialLine := none, button := true,
        levels := [false, true, true] }).2 (by decide) (by decide) (by decide),
   by decide⟩

open Master in
theorem c8_flash_command_witness :
    (step 19 TEST_LABELS (initState 19)
        { now := 0, serialLine := some " DfU\t", button := true,
          levels := List.replicate 19 false }).1
      = (step 19 TEST_LABELS (initState 19)
          { now := 0, serialLine := none, button := true,
            levels := List.replicate 19 false }).1 ∧
    (step 19 TEST_LABELS (initState 19)
        { now := 0, serialLine := some " DfU\t", button := true,
          levels := List.replicate 19 false }).2
      = Ev.flashCmdReceived :: Ev.sentReset :: Ev.sentReset ::
          (step 19 TEST_LABELS (initState 19)
            { now := 0, serialLine := none, button := true,
              levels := List.replicate 19 false }).2 :=
  c8_flash_command 19 TEST_LABELS (initState 19)
    { now := 0, serialLine := some " DfU\t", button := true,
      levels := List.replicate 19 false }
    " DfU\t" rfl (Or.inr (by decide))

end CnTester

namespace CnTester

namespace Master

/-- Fail-stage state that carries a stale `beginAllLowPrinted` flag and a
latched start request. -/
def failProbe : MasterState :=
  { initState 19 with
      state := TestState.fail, beginAllLowPrinted := true, startRequested := true }

/-- AwaitActivation-stage state with the same stale flag and latch. -/
def buttonProbe : MasterState :=
  { initState 19 with beginAllLowPrinted := true, startRequested := true }

/-- AwaitActivation-stage state with both mid-run begin flags stale. -/
def buttonProbe2 : MasterState :=
  { initState 19 with
      beginAllLowPrinted := true, beginSequencePrinted := true, startRequested := true }

/-- Fail-stage state with nothing pending: no latch, button released. -/
def failIdleProbe : MasterState := { initState 19 with state := TestState.fail }

/-- Quiet poll: no serial line, button released, all lines low. -/
def quietProbe : Input :=
  { now := 0, serialLine := none, button := true, levels := List.replicate 19 false }

end Master

/-! ## C5 and C6: activation handling from Fail and from AwaitActivation -/

open Master in
/-- C5 counterexample: starting from two states that agree on everything
but the stage — one in Fail, one in AwaitActivation — with a stale
`beginAllLowPrinted` flag and a latched start request, the same quiet poll
drives both to AwaitAllHigh, yet the Fail activation clears
`beginAllLowPrinted` while the AwaitActivation activation leaves it set:
the two activation handlers do not perform the same per-run state reset,
so the claim as stated is false. -/
theorem c5_counterexample :
    (step 19 TEST_LABELS failProbe quietProbe).1.state = TestState.waitAllHigh ∧
    (step 19 TEST_LABELS buttonProbe quietProbe).1.state = TestState.waitAllHigh ∧
    (step 19 TEST_LABELS failProbe quietProbe).1.beginAllLowPrinted = false ∧
    (step 19 TEST_LABELS buttonProbe quietProbe).1.beginAllLowPrinted = true := by
  decide

open Master in
/-- C5 (amended): after entering Fail the machine performs no transition
other than to AwaitAllHigh, and that only on a qualifying activation
(debounced pressed button or latched/just-received start request); the
activation issues the start marker followed by a single reset pulse and
performs a full per-run state reset — one that clears everything
AwaitActivation's handler clears and, in addition, the
`beginAllLowPrinted` and `beginSequencePrinted` flags that
AwaitActivation's handler leaves untouched. -/
theorem c5_amended_fail_transitions (n : Nat) (labels : List String)
    (s : MasterState) (inp : Input) (hs : s.state = TestState.fail) :
    ((pressedOf inp s || (s.startRequested || serialLatch inp.serialLine)) = false →
      (step n labels s inp).1.state = TestState.fail) ∧
    ((pressedOf inp s || (s.startRequested || serialLatch inp.serialLine)) = true →
      (step n labels s inp).1.state = TestState.waitAllHigh ∧
      (step n labels s inp).1.expectedIndex = 0 ∧
      (step n labels s inp).1.pinWasHigh = List.replicate n false ∧
      (step n labels s inp).1.precheckAllHighOk = false ∧
      (step n labels s inp).1.precheckAllLowOk = false ∧
      (step n labels s inp).1.beginAllHighPrinted = false ∧
      (step n labels s inp).1.beginAllLowPrinted = false ∧
      (step n labels s inp).1.beginSequencePrinted = false ∧
      (step n labels s inp).1.beginFailPrinted = false ∧
      (step n labels s inp).1.startRequested = false ∧
      List.IsSuffix [Ev.startMarker, Ev.sentReset] (step n labels s inp).2) := by
  constructor <;> intro h <;>
    (rw [step_eq]; simp only [stepCore, preState]; simp only [hs]) <;>
    simp_all [List.IsSuffix] <;>
    split_ifs <;>
    simp_all <;>
    first
      | exact ⟨serialEvs inp.serialLine ++ [Ev.failMarker], by simp⟩
      | exact ⟨serialEvs inp.serialLine, by simp⟩

open Master in
theorem c5_amended_fail_transitions_witness :
    (step 19 TEST_LABELS failIdleProbe quietProbe).1.state = TestState.fail ∧
    ((step 19 TEST_LABELS failProbe quietProbe).1.state = TestState.waitAllHigh ∧
      (step 19 TEST_LABELS failProbe quietProbe).1.beginAllLowPrinted = false ∧
      (step 19 TEST_LABELS failProbe quietProbe).1.beginSequencePrinted = false) :=
  have h2 := (c5_amended_fail_transitions 19 TEST_LABELS failProbe quietProbe rfl).2
    (by decide)
  ⟨(c5_amended_fail_transitions 19 TEST_LABELS failIdleProbe quietProbe rfl).1 (by decide),
   h2.1, h2.2.2.2.2.2.2.1, h2.2.2.2.2.2.2.2.1⟩

open Master in
/-- C6 counterexample: a qualifying activation taken from AwaitActivation
enters AwaitAllHigh while leaving the stale `beginAllLowPrinted` and
`beginSequencePrinted` flags set, so the claim that every entry into
AwaitAllHigh resets every per-stage begin-printed flag is false. -/
theorem c6_counterexample :
    (step 19 TEST_LABELS buttonProbe2 quietProbe).1.state = TestState.waitAllHigh ∧
    (step 19 TEST_LABELS buttonProbe2 quietProbe).1.beginAllLowPrinted = true ∧
    (step 19 TEST_LABELS buttonProbe2 quietProbe).1.beginSequencePrinted = true := by
  decide

open Master in
/-- C6 (amended): every entry into AwaitAllHigh resets the Sequence cursor
to 0, every per-line "was high" flag to false, the precheck outcome flags
to false, the start latch to false, and the `beginAllHighPrinted` and
`beginFailPrinted` one-shots to false.  Entry from Fail additionally
clears `beginAllLowPrinted` and `beginSequencePrinted`; entry from
AwaitActivation leaves those two unchanged (they are cleared later, on the
transitions that enter their stages, before they are next read). -/
theorem c6_amended_reset_on_entry (n : Nat) (labels : List String)
    (s : MasterState) (inp : Input) :
    (s.state = TestState.waitButton →
      (pressedOf inp s || (s.startRequested || serialLatch inp.serialLine)) = true →
      (step n labels s inp).1.state = TestState.waitAllHigh ∧
      (step n labels s inp).1.expectedIndex = 0 ∧
      (step n labels s inp).1.pinWasHigh = List.replicate n false ∧
      (step n labels s inp).1.precheckAllHighOk = false ∧
      (step n labels s inp).1.precheckAllLowOk = false ∧
      (step n labels s inp).1.startRequested = false ∧
      (step n labels s inp).1.beginAllHighPrinted = false ∧
      (step n labels s inp).1.beginFailPrinted = false ∧
      (step n labels s inp).1.beginAllLowPrinted = s.beginAllLowPrinted ∧
      (step n labels s inp).1.beginSequencePrinted = s.beginSequencePrinted) ∧
    (s.state = TestState.fail →
      (pressedOf inp s || (s.startRequested || serialLatch inp.serialLine)) = true →
      (step n labels s inp).1.state = TestState.waitAllHigh ∧
      (step n labels s inp).1.expectedIndex = 0 ∧
      (step n labels s inp).1.pinWasHigh = List.replicate n false ∧
      (step n labels s inp).1.precheckAllHighOk = false ∧
      (step n labels s inp).1.precheckAllLowOk = false ∧
      (step n labels s inp).1.startRequested = false ∧
      (step n labels s inp).1.beginAllHighPrinted = false ∧
      (step n labels s inp).1.beginFailPrinted = false ∧
      (step n labels s inp).1.beginAllLowPrinted = false ∧
      (step n labels s inp).1.beginSequencePrinted = false) := by
  constructor <;> intro hs h <;>
    (rw [step_eq]; simp only [stepCore, preState]; simp only [hs]) <;>
    simp_all <;> split_ifs <;> simp_all

open Master in
theorem c6_amended_reset_on_entry_witness :
    ((step 19 TEST_LABELS buttonProbe2 quietProbe).1.state = TestState.waitAllHigh ∧
      (step 19 TEST_LABELS buttonProbe2 quietProbe).1.beginAllLowPrinted
        = buttonProbe2.beginAllLowPrinted) ∧
    ((step 19 TEST_LABELS failProbe quietProbe).1.state = TestState.waitAllHigh ∧
      (step 19 TEST_LABELS failProbe quietProbe).1.beginAllLowPrinted = false) :=
  have h1 := (c6_amended_reset_on_entry 19 TEST_LABELS buttonProbe2 quietProbe).1
    rfl (by decide)
  have h2 := (c6_amended_reset_on_entry 19 TEST_LABELS failProbe quietProbe).2
    rfl (by decide)
  ⟨⟨h1.1, h1.2.2.2.2.2.2.2.2.1⟩, ⟨h2.1, h2.2.2.2.2.2.2.2.2.1⟩⟩

end CnTester

namespace CnTester

namespace Master

/-- Project away the two precheck outcome flags. -/
def maskPrecheck (s : MasterState) : MasterState :=
  { s with precheckAllHighOk := false, precheckAllLowOk := false }

set_option maxHeartbeats 1000000 in
theorem stepCore_mask (n : Nat) (labels : List String) (s t : MasterState)
    (now : Nat) (pressed : Bool) (levels : List Bool)
    (h : maskPrecheck s = maskPrecheck t) :
    (stepCore n labels s now pressed levels).2
      = (stepCore n labels t now pressed levels).2 ∧
    maskPrecheck (stepCore n labels s now pressed levels).1
      = maskPrecheck (stepCore n labels t now pressed levels).1 := by
  obtain ⟨st, f1, f2, f3, f4, f5, f6, p1, p2, f7, f8, f9, f10, f11⟩ := s
  obtain ⟨st', g1, g2, g3, g4, g5, g6, q1, q2, g7, g8, g9, g10, g11⟩ := t
  simp only [maskPrecheck, MasterState.mk.injEq] at h
  obtain ⟨rfl, rfl, rfl, rfl, rfl, rfl, rfl, -, -, rfl, rfl, rfl, rfl, rfl⟩ := h
  cases st
  case waitButton => simp only [stepCore]; split_ifs <;> simp_all [maskPrecheck]
  case waitAllHigh => simp only [stepCore]; split_ifs <;> simp_all [maskPrecheck]
  case waitAllLow => simp only [stepCore]; split_ifs <;> simp_all [maskPrecheck]
  case success => simp [stepCore, maskPrecheck]
  case fail =>
    cases f11 <;>
    · simp only [stepCore, Bool.false_eq_true, eq_self_iff_true, if_true, if_false]
      by_cases c1 : 150 ≤ now - f2
      · simp only [if_pos c1]
        by_cases c2 : (pressed || f7) = true <;> simp [c2, maskPrecheck]
      · simp only [if_neg c1]
        by_cases c2 : (pressed || f7) = true <;> simp [c2, maskPrecheck]
  case sequence =>
    cases f10 <;>
    · simp only [stepCore, Bool.false_eq_true, eq_self_iff_true, if_true, if_false]
      by_cases c1 : 1 < countHigh levels
      · simp [c1, maskPrecheck]
      · simp only [if_neg c1]
        by_cases c2 : countHigh levels = 1
        · simp only [if_pos c2]
          by_cases c3 : f6.getD (highIdx levels) false = true
          · simp only [if_pos c3]
            by_cases c7 : SEQUENCE_TIMEOUT_MS < now - f1 <;> simp [c7, maskPrecheck]
          · simp only [if_neg c3]
            by_cases c4 : highIdx levels = f5
            · simp only [if_pos c4]
              by_cases c5 : f5 + 1 = n
              · simp [c5, maskPrecheck]
              · simp only [if_neg c5]
                by_cases c7 : SEQUENCE_TIMEOUT_MS < now - f1 <;> simp [c7, maskPrecheck]
            · simp only [if_neg c4]
              by_cases c6 : f5 < highIdx levels <;> simp [c6, maskPrecheck]
        · simp only [if_neg c2]
          by_cases c7 : SEQUENCE_TIMEOUT_MS < now - f1 <;> simp [c7, maskPrecheck]

theorem maskPrecheck_preState (s t : MasterState) (inp : Input)
    (h : maskPrecheck s = maskPrecheck t) :
    maskPrecheck (preState inp s) = maskPrecheck (preState inp t) := by
  obtain ⟨st, f1, f2, f3, f4, f5, f6, p1, p2, f7, f8, f9, f10, f11⟩ := s
  obtain ⟨st', g1, g2, g3, g4, g5, g6, q1, q2, g7, g8, g9, g10, g11⟩ := t
  simp only [maskPrecheck, MasterState.mk.injEq] at h
  obtain ⟨rfl, rfl, rfl, rfl, rfl, rfl, rfl, -, -, rfl, rfl, rfl, rfl, rfl⟩ := h
  simp [preState, maskPrecheck, edgeMs]

theorem pressedOf_mask (s t : MasterState) (inp : Input)
    (h : maskPrecheck s = maskPrecheck t) :
    pressedOf inp s = pressedOf inp t := by
  obtain ⟨st, f1, f2, f3, f4, f5, f6, p1, p2, f7, f8, f9, f10, f11⟩ := s
  obtain ⟨st', g1, g2, g3, g4, g5, g6, q1, q2, q7, g8, g9, g10, g11⟩ := t
  simp only [maskPrecheck, MasterState.mk.injEq] at h
  obtain ⟨rfl, rfl, rfl, rfl, rfl, rfl, rfl, -, -, rfl, rfl, rfl, rfl, rfl⟩ := h
  rfl

theorem step_mask (n : Nat) (labels : List String) (s t : MasterState) (inp : Input)
    (h : maskPrecheck s = maskPrecheck t) :
    (step n labels s inp).2 = (step n labels t inp).2 ∧
    maskPrecheck (step n labels s inp).1 = maskPrecheck (step n labels t inp).1 := by
  rw [step_eq, step_eq, pressedOf_mask s t inp h]
  have hc := stepCore_mask n labels (preState inp s) (preState inp t) inp.now
    (pressedOf inp t) inp.levels (maskPrecheck_preState s t inp h)
  exact ⟨by rw [hc.1], hc.2⟩

/-- State of the Master with both precheck outcome flags set, as after two
successful prechecks. -/
def precheckTrueState : MasterState :=
  { initState 19 with precheckAllHighOk := true, precheckAllLowOk := true }

end Master

/-! ## C10: the precheck outcome flags are unobservable -/

open Master in
/-- C10: `precheckAllHighOk` and `precheckAllLowOk` are write-only — no
transition or emitted event reads them.  Any two states that differ only in
these two flags produce, for every input trace, identical event output and
final states again differing at most in these two flags; in particular a
run whose prechecks timed out behaves and reports identically to one whose
prechecks passed. -/
theorem c10_precheck_flags_unobservable (n : Nat) (labels : List String)
    (s t : MasterState) (h : maskPrecheck s = maskPrecheck t) (tr : List Input) :
    (run n labels s tr).2 = (run n labels t tr).2 ∧
    maskPrecheck (run n labels s tr).1 = maskPrecheck (run n labels t tr).1 := by
  induction tr generalizing s t with
  | nil => simpa [run] using h
  | cons inp rest ih =>
    have hstep := step_mask n labels s t inp h
    have hrest := ih (step n labels s inp).1 (step n labels t inp).1 hstep.2
    simp [run, hstep.1, hrest.1, hrest.2]

open Master in
theorem c10_precheck_flags_unobservable_witness :
    (run 19 TEST_LABELS (initState 19) [quietProbe]).2
      = (run 19 TEST_LABELS precheckTrueState [quietProbe]).2 ∧
    maskPrecheck (run 19 TEST_LABELS (initState 19) [quietProbe]).1
      = maskPrecheck (run 19 TEST_LABELS precheckTrueState [quietProbe]).1 :=
  c10_precheck_flags_unobservable 19 TEST_LABELS (initState 19) precheckTrueState
    (by decide) [quietProbe]

end CnTester

namespace CnTester

namespace Master

/-- Begin-marker one-shot flag of each stage that owns one. -/
def flagOf (X : TestState) (s : MasterState) : Bool :=
  match X with
  | TestState.waitAllHigh => s.beginAllHighPrinted
  | TestState.waitAllLow => s.beginAllLowPrinted
  | TestState.sequence => s.beginSequencePrinted
  | TestState.fail => s.beginFailPrinted
  | _ => true

/-- Begin marker of each stage that owns one (the fail marker for Fail). -/
def beginMarkerOf (X : TestState) : Option Ev :=
  match X with
  | TestState.waitAllHigh => some Ev.allHighBegin
  | TestState.waitAllLow => some Ev.allLowBegin
  | TestState.sequence => some Ev.seqBegin
  | TestState.fail => some Ev.failMarker
  | _ => none

/-- Number of occurrences of stage `X`'s begin marker in an event list. -/
def beginCount (X : TestState) (evs : List Ev) : Nat :=
  match beginMarkerOf X with
  | some e => evs.countP (fun x => decide (x = e))
  | none => 0

/-- 1 when the machine sits in stage `X` with its begin marker still
unprinted (the next poll inside `X` will print it), else 0. -/
def pending (X : TestState) (s : MasterState) : Nat :=
  if s.state = X ∧ flagOf X s = false then 1 else 0

/-- Number of transitions into stage `X` along a list of visited states;
`prev` is the state preceding the first listed one. -/
def entriesInto (X : TestState) : MasterState → List MasterState → Nat
  | _, [] => 0
  | prev, s :: rest =>
    (if s.state = X ∧ ¬ prev.state = X then 1 else 0) + entriesInto X s rest

end Master

end CnTester

namespace CnTester

namespace Master

set_option maxRecDepth 16000 in
theorem stepCore_begin (n : Nat) (labels : List String) (s : MasterState)
    (now : Nat) (pressed : Bool) (levels : List Bool) (X : TestState)
    (hX : X = TestState.waitAllHigh ∨ X = TestState.waitAllLow
          ∨ X = TestState.sequence ∨ X = TestState.fail)
    (hInv : ¬ s.state = TestState.fail → s.beginFailPrinted = false) :
    beginCount X (stepCore n labels s now pressed levels).2
      + pending X (stepCore n labels s now pressed levels).1
      = (if (stepCore n labels s now pressed levels).1.state = X ∧ ¬ s.state = X
         then 1 else 0) + pending X s ∧
    (¬ (stepCore n labels s now pressed levels).1.state = TestState.fail →
      (stepCore n labels s now pressed levels).1.beginFailPrinted = false) := by
  obtain ⟨st, f1, f2, f3, f4, f5, f6, p1, p2, f7, f8, f9, f10, f11⟩ := s
  cases st
  case waitButton =>
    have hf : f11 = false := hInv (by simp)
    subst hf
    rcases hX with rfl | rfl | rfl | rfl <;>
    · simp only [stepCore]
      by_cases c1 : 500 ≤ now - f2
      · simp only [if_pos c1]
        by_cases c2 : (pressed || f7) = true <;>
          simp [c2, pending, flagOf, beginCount, beginMarkerOf]
      · simp only [if_neg c1]
        by_cases c2 : (pressed || f7) = true <;>
          simp [c2, pending, flagOf, beginCount, beginMarkerOf]
  case waitAllHigh =>
    have hf : f11 = false := hInv (by simp)
    subst hf
    rcases hX with rfl | rfl | rfl | rfl <;>
    · cases f8 <;>
      · simp only [stepCore, Bool.false_eq_true, eq_self_iff_true, if_true, if_false]
        by_cases c1 : (levels.all fun l => l == true) = true
        · simp only [if_pos c1]
          simp [pending, flagOf, beginCount, beginMarkerOf]
        · simp only [if_neg c1]
          by_cases c2 : PRECHECK_TIMEOUT_MS < now - f1 <;>
            simp [c2, pending, flagOf, beginCount, beginMarkerOf]
  case waitAllLow =>
    have hf : f11 = false := hInv (by simp)
    subst hf
    rcases hX with rfl | rfl | rfl | rfl <;>
    · cases f9 <;>
      · simp only [stepCore, Bool.false_eq_true, eq_self_iff_true, if_true, if_false]
        by_cases c1 : (levels.all fun l => l == false) = true
        · simp only [if_pos c1]
          simp [pending, flagOf, beginCount, beginMarkerOf]
        · simp only [if_neg c1]
          by_cases c2 : LOW_STAGE_TIMEOUT_MS < now - f1 <;>
            simp [c2, pending, flagOf, beginCount, beginMarkerOf]
  case success =>
    have hf : f11 = false := hInv (by simp)
    subst hf
    rcases hX with rfl | rfl | rfl | rfl <;>
      simp [stepCore, pending, flagOf, beginCount, beginMarkerOf]
  case sequence =>
    have hf : f11 = false := hInv (by simp)
    subst hf
    rcases hX with rfl | rfl | rfl | rfl <;>
    · cases f10 <;>
      · simp only [stepCore, Bool.false_eq_true, eq_self_iff_true, if_true, if_false]
        by_cases c1 : 1 < countHigh levels
        · simp [c1, pending, flagOf, beginCount, beginMarkerOf]
        · simp only [if_neg c1]
          by_cases c2 : countHigh levels = 1
          · simp only [if_pos c2]
            by_cases c3 : f6.getD (highIdx levels) false = true
            · simp only [if_pos c3]
              by_cases c7 : SEQUENCE_TIMEOUT_MS < now - f1 <;>
                simp [c7, pending, flagOf, beginCount, beginMarkerOf]
            · simp only [if_neg c3]
              by_cases c4 : highIdx levels = f5
              · simp only [if_pos c4]
                by_cases c5 : f5 + 1 = n
                · simp [c5, pending, flagOf, beginCount, beginMarkerOf]
                · simp only [if_neg c5]
                  by_cases c7 : SEQUENCE_TIMEOUT_MS < now - f1 <;>
                    simp [c7, pending, flagOf, beginCount, beginMarkerOf]
              · simp only [if_neg c4]
                by_cases c6 : f5 < highIdx levels <;>
                  simp [c6, pending, flagOf, beginCount, beginMarkerOf]
          · simp only [if_neg c2]
            by_cases c7 : SEQUENCE_TIMEOUT_MS < now - f1 <;>
              simp [c7, pending, flagOf, beginCount, beginMarkerOf]
  case fail =>
    rcases hX with rfl | rfl | rfl | rfl <;>
    · cases f11 <;>
      · simp only [stepCore, Bool.false_eq_true, eq_self_iff_true, if_true, if_false]
        by_cases c1 : 150 ≤ now - f2
        · simp only [if_pos c1]
          by_cases c2 : (pressed || f7) = true <;>
            simp [c2, pending, flagOf, beginCount, beginMarkerOf]
        · simp only [if_neg c1]
          by_cases c2 : (pressed || f7) = true <;>
            simp [c2, pending, flagOf, beginCount, beginMarkerOf]


theorem beginCount_nil (X : TestState) : beginCount X [] = 0 := by
  unfold beginCount
  cases beginMarkerOf X <;> simp

theorem beginCount_append (X : TestState) (a b : List Ev) :
    beginCount X (a ++ b) = beginCount X a + beginCount X b := by
  unfold beginCount
  cases beginMarkerOf X <;> simp [List.countP_append]

theorem beginCount_serialEvs (X : TestState) (l : Option String) :
    beginCount X (serialEvs l) = 0 := by
  have hnone : beginCount X ([] : List Ev) = 0 := by
    unfold beginCount; cases beginMarkerOf X <;> simp
  match l with
  | none => exact hnone
  | some raw =>
    simp only [serialEvs]
    match parseCmd raw with
    | none => exact hnone
    | some Cmd.start => cases X <;> simp [beginCount, beginMarkerOf]
    | some Cmd.flash => cases X <;> simp [beginCount, beginMarkerOf]

theorem flagOf_preState (X : TestState) (inp : Input) (s : MasterState) :
    flagOf X (preState inp s) = flagOf X s := by
  cases X <;> simp [flagOf, preState]

theorem step_begin (n : Nat) (labels : List String) (s : MasterState) (inp : Input)
    (X : TestState)
    (hX : X = TestState.waitAllHigh ∨ X = TestState.waitAllLow
          ∨ X = TestState.sequence ∨ X = TestState.fail)
    (hInv : ¬ s.state = TestState.fail → s.beginFailPrinted = false) :
    beginCount X (step n labels s inp).2 + pending X (step n labels s inp).1
      = (if (step n labels s inp).1.state = X ∧ ¬ s.state = X then 1 else 0)
        + pending X s ∧
    (¬ (step n labels s inp).1.state = TestState.fail →
      (step n labels s inp).1.beginFailPrinted = false) := by
  rw [step_eq]
  have hInv2 : ¬ (preState inp s).state = TestState.fail →
      (preState inp s).beginFailPrinted = false := by
    simpa [preState] using hInv
  have hc := stepCore_begin n labels (preState inp s) inp.now (pressedOf inp s)
    inp.levels X hX hInv2
  have hpend : pending X (preState inp s) = pending X s := by
    unfold pending
    rw [flagOf_preState]
    rfl
  have hst : (preState inp s).state = s.state := rfl
  rw [hpend, hst] at hc
  refine ⟨?_, hc.2⟩
  rw [beginCount_append, beginCount_serialEvs, Nat.zero_add]
  exact hc.1

theorem run_cons_fst (n : Nat) (labels : List String) (s : MasterState)
    (inp : Input) (rest : List Input) :
    (run n labels s (inp :: rest)).1 = (run n labels (step n labels s inp).1 rest).1 := by
  simp [run]

theorem run_cons_snd (n : Nat) (labels : List String) (s : MasterState)
    (inp : Input) (rest : List Input) :
    (run n labels s (inp :: rest)).2
      = (step n labels s inp).2 ++ (run n labels (step n labels s inp).1 rest).2 := by
  simp [run]

theorem run_begin (n : Nat) (labels : List String) (X : TestState)
    (hX : X = TestState.waitAllHigh ∨ X = TestState.waitAllLow
          ∨ X = TestState.sequence ∨ X = TestState.fail) :
    ∀ (tr : List Input) (s : MasterState),
      (¬ s.state = TestState.fail → s.beginFailPrinted = false) →
      beginCount X (run n labels s tr).2 + pending X (run n labels s tr).1
        = entriesInto X s (visited n labels s tr) + pending X s := by
  intro tr
  induction tr with
  | nil => intro s h; simp [run, visited, entriesInto, beginCount_nil]
  | cons inp rest ih =>
    intro s h
    have hs := step_begin n labels s inp X hX h
    have hr := ih (step n labels s inp).1 hs.2
    rw [run_cons_fst, run_cons_snd, beginCount_append]
    show _ = entriesInto X s ((step n labels s inp).1 :: visited n labels (step n labels s inp).1 rest) + _
    rw [entriesInto]
    omega

end Master

end CnTester

namespace CnTester

open Master in
/-- C7: the Stage is a single field of the machine state, so exactly one
stage is active at any instant by construction; and for every input trace
from power-up, each stage-entry marker — the ALL_HIGH, ALL_LOW and
SEQUENCE begin markers and the fail marker — is emitted exactly once per
entry into its stage: the number of emissions equals the number of
transitions into the stage, minus the one still pending when the trace
ends just after an entry whose first in-stage poll has not yet run. -/
theorem c7_begin_markers_once_per_entry (n : Nat) (labels : List String)
    (tr : List Input) :
    (beginCount TestState.waitAllHigh (run n labels (initState n) tr).2
        + pending TestState.waitAllHigh (run n labels (initState n) tr).1
      = entriesInto TestState.waitAllHigh (initState n)
          (visited n labels (initState n) tr)) ∧
    (beginCount TestState.waitAllLow (run n labels (initState n) tr).2
        + pending TestState.waitAllLow (run n labels (initState n) tr).1
      = entriesInto TestState.waitAllLow (initState n)
          (visited n labels (initState n) tr)) ∧
    (beginCount TestState.sequence (run n labels (initState n) tr).2
        + pending TestState.sequence (run n labels (initState n) tr).1
      = entriesInto TestState.sequence (initState n)
          (visited n labels (initState n) tr)) ∧
    (beginCount TestState.fail (run n labels (initState n) tr).2
        + pending TestState.fail (run n labels (initState n) tr).1
      = entriesInto TestState.fail (initState n)
          (visited n labels (initState n) tr)) := by
  refine ⟨?_, ?_, ?_, ?_⟩
  · have h := run_begin n labels TestState.waitAllHigh (Or.inl rfl) tr (initState n)
      (by simp [initState])
    rw [show pending TestState.waitAllHigh (initState n) = 0 from
      by simp [pending, initState, flagOf]] at h
    simpa using h
  · have h := run_begin n labels TestState.waitAllLow (Or.inr (Or.inl rfl)) tr
      (initState n) (by simp [initState])
    rw [show pending TestState.waitAllLow (initState n) = 0 from
      by simp [pending, initState, flagOf]] at h
    simpa using h
  · have h := run_begin n labels TestState.sequence (Or.inr (Or.inr (Or.inl rfl))) tr
      (initState n) (by simp [initState])
    rw [show pending TestState.sequence (initState n) = 0 from
      by simp [pending, initState, flagOf]] at h
    simpa using h
  · have h := run_begin n labels TestState.fail (Or.inr (Or.inr (Or.inr rfl))) tr
      (initState n) (by simp [initState])
    rw [show pending TestState.fail (initState n) = 0 from
      by simp [pending, initState, flagOf]] at h
    simpa using h

end CnTester

namespace CnTester

namespace Master

/-- Quiet poll at a fixed instant (no serial line, button released). -/
def quietInput (levels : List Bool) : Input :=
  { now := 100, serialLine := none, button := true, levels := levels }

/-- Poll delivering the `start` command with all lines low. -/
def startInput (n : Nat) : Input :=
  { now := 100, serialLine := some "start", button := true,
    levels := List.replicate n false }

/-- Poll in which exactly roster line `i` reads high. -/
def pulseInput (n i : Nat) : Input :=
  quietInput ((List.replicate n false).set i true)

/-- Poll in which every roster line reads low. -/
def gapInput (n : Nat) : Input := quietInput (List.replicate n false)

/-- Input trace of a full clean run following the Stimulus Driver's script:
a qualifying activation (the `start` command), an all-high poll, an all-low
poll, then for each roster line in order a poll with that line high alone
followed by an all-low gap.  All polls carry the same `millis()` value, so
no timeout can expire. -/
def cleanTrace (n : Nat) : List Input :=
  [startInput n, quietInput (List.replicate n true), gapInput n]
    ++ (List.range n).flatMap (fun i => [pulseInput n i, gapInput n])

/-- State right after the activation poll of a clean run. -/
def afterStart (n : Nat) : MasterState :=
  { initState n with state := TestState.waitAllHigh, stateStartMs := 100 }

/-- State right after the all-high poll of a clean run. -/
def afterHigh (n : Nat) : MasterState :=
  { afterStart n with
      beginAllHighPrinted := true, precheckAllHighOk := true,
      state := TestState.waitAllLow }

/-- Sequence-stage state of a clean run: cursor at `i`, all "was high"
flags clear, begin-printed flag of the stage equal to `b`. -/
def seqState (n i : Nat) (b : Bool) : MasterState :=
  { state := TestState.sequence, stateStartMs := 100, lastBlinkMs := 0,
    lastButtonEdgeMs := 0, lastButtonState := true, expectedIndex := i,
    pinWasHigh := List.replicate n false, precheckAllHighOk := true,
    precheckAllLowOk := true, startRequested := false,
    beginAllHighPrinted := true, beginAllLowPrinted := true,
    beginSequencePrinted := b, beginFailPrinted := false }

/-- State right after the pulse poll of line `i` (cursor advanced). -/
def midRun (n i : Nat) : MasterState :=
  { seqState n (i + 1) true with pinWasHigh := (List.replicate n false).set i true }

/-- State right after the pulse poll of the last line: Success. -/
def succRun (n i : Nat) : MasterState :=
  { midRun n i with state := TestState.success }

/-- State right after the poll following Success. -/
def postRun (n i : Nat) : MasterState :=
  { midRun n i with state := TestState.waitButton }

theorem parseCmd_start_lit : parseCmd "start" = some Cmd.start := by decide

theorem step_clean_start (n : Nat) (labels : List String) :
    (step n labels (initState n) (startInput n)).1 = afterStart n := by
  rw [step_eq]
  simp [stepCore, preState, pressedOf, edgeMs, serialLatch, parseCmd_start_lit,
        startInput, initState, afterStart]

theorem step_clean_high (n : Nat) (labels : List String) :
    (step n labels (afterStart n) (quietInput (List.replicate n true))).1
      = afterHigh n := by
  rw [step_eq]
  simp [stepCore, preState, pressedOf, edgeMs, serialLatch, quietInput,
        afterStart, afterHigh, initState, all_eq_true_replicate]

theorem step_clean_low (n : Nat) (labels : List String) :
    (step n labels (afterHigh n) (gapInput n)).1 = seqState n 0 false := by
  rw [step_eq]
  simp [stepCore, preState, pressedOf, edgeMs, serialLatch, gapInput, quietInput,
        afterHigh, afterStart, initState, seqState, all_eq_false_replicate]

theorem step_clean_pulse (n i : Nat) (labels : List String) (b : Bool)
    (h : i + 1 < n) :
    (step n labels (seqState n i b) (pulseInput n i)).1 = midRun n i := by
  have hi : i < n := by omega
  rw [step_eq]
  cases b <;>
    simp [stepCore, preState, pressedOf, edgeMs, serialLatch, pulseInput,
          quietInput, seqState, midRun, countHigh, highIdx,
          highIndices_pulse n i hi, getD_replicate_false,
          Nat.ne_of_lt h]

theorem step_clean_last_pulse (n i : Nat) (labels : List String) (b : Bool)
    (h : i + 1 = n) :
    (step n labels (seqState n i b) (pulseInput n i)).1 = succRun n i := by
  have hi : i < n := by omega
  rw [step_eq]
  cases b <;>
    simp [stepCore, preState, pressedOf, edgeMs, serialLatch, pulseInput,
          quietInput, seqState, midRun, succRun, countHigh, highIdx,
          highIndices_pulse n i hi, getD_replicate_false, h]

theorem step_clean_gap (n i : Nat) (labels : List String) :
    (step n labels (midRun n i) (gapInput n)).1 = seqState n (i + 1) true := by
  rw [step_eq]
  simp [stepCore, preState, pressedOf, edgeMs, serialLatch, gapInput, quietInput,
        seqState, midRun, countHigh, highIndices_replicate_false]
  rw [zipWith_and_replicate_false]
  simp

theorem step_clean_post (n i : Nat) (labels : List String) :
    (step n labels (succRun n i) (gapInput n)).1 = postRun n i := by
  rw [step_eq]
  simp [stepCore, preState, pressedOf, edgeMs, serialLatch, gapInput, quietInput,
        succRun, postRun, midRun, seqState]

end Master

end CnTester

namespace CnTester

namespace Master

theorem visited_append (n : Nat) (labels : List String) (t1 t2 : List Input) :
    ∀ s : MasterState,
      visited n labels s (t1 ++ t2)
        = visited n labels s t1 ++ visited n labels (run n labels s t1).1 t2 := by
  induction t1 with
  | nil => intro s; simp [visited, run]
  | cons inp rest ih =>
    intro s
    simp only [List.cons_append, visited, run, List.append_eq]
    rw [ih]

theorem run_append_fst (n : Nat) (labels : List String) (t1 t2 : List Input) :
    ∀ s : MasterState,
      (run n labels s (t1 ++ t2)).1 = (run n labels (run n labels s t1).1 t2).1 := by
  induction t1 with
  | nil => intro s; simp [run]
  | cons inp rest ih =>
    intro s
    simp only [List.cons_append, run, List.append_eq]
    rw [ih]

theorem seq_phase (n : Nat) (labels : List String) :
    ∀ (j : Nat) (b : Bool), j + 1 ≤ n →
      (∀ s ∈ visited n labels (seqState n 0 b)
          ((List.range j).flatMap (fun i => [pulseInput n i, gapInput n])),
        s.state = TestState.sequence) ∧
      (run n labels (seqState n 0 b)
          ((List.range j).flatMap (fun i => [pulseInput n i, gapInput n]))).1
        = seqState n j (if j = 0 then b else true) := by
  intro j
  induction j with
  | zero => intro b h; simp [visited, run]
  | succ m ih =>
    intro b h
    have hm := ih b (by omega)
    have hlt : m + 1 < n := by omega
    rw [List.range_succ, List.flatMap_append, visited_append, run_append_fst]
    rw [hm.2]
    constructor
    · intro s hmem
      rcases List.mem_append.mp hmem with hmem | hmem
      · exact hm.1 s hmem
      · have hv : visited n labels (seqState n m (if m = 0 then b else true))
            ((([m] : List Nat)).flatMap (fun i => [pulseInput n i, gapInput n]))
            = [midRun n m, seqState n (m + 1) true] := by
          simp only [List.flatMap_cons, List.flatMap_nil, List.append_nil, visited]
          rw [step_clean_pulse n m labels _ hlt, step_clean_gap]
        rw [hv] at hmem
        simp only [List.mem_cons, List.not_mem_nil, or_false] at hmem
        rcases hmem with rfl | rfl
        · simp [midRun, seqState]
        · simp [seqState]
    · have : (run n labels (seqState n m (if m = 0 then b else true))
          ((([m] : List Nat)).flatMap (fun i => [pulseInput n i, gapInput n]))).1
          = seqState n (m + 1) true := by
        simp only [List.flatMap_cons, List.flatMap_nil, List.append_nil, run]
        rw [step_clean_pulse n m labels _ hlt, step_clean_gap]
      rw [this]
      simp

end Master

end CnTester

namespace CnTester

open Master in
/-- C1: for every roster length `n ≥ 1`, a run started by a qualifying
activation whose sampled levels follow the stimulus script exactly — all
high, then all low, then each roster line in order high alone with all-low
gaps, with no stray highs and no timeout expiry — visits the Success state
exactly once, and the Sequence cursor equals `n` at the state in which
Success is entered. -/
theorem c1_clean_run_reaches_success (n : Nat) (labels : List String)
    (h : 1 ≤ n) :
    ((visited n labels (initState n) (cleanTrace n)).countP
        (fun s => decide (s.state = TestState.success)) = 1) ∧
    (∀ s ∈ visited n labels (initState n) (cleanTrace n),
      s.state = TestState.success → s.expectedIndex = n) := by
  obtain ⟨m, rfl⟩ : ∃ m, n = m + 1 := ⟨n - 1, by omega⟩
  have hpre : visited (m + 1) labels (initState (m + 1))
      [startInput (m + 1), quietInput (List.replicate (m + 1) true), gapInput (m + 1)]
      = [afterStart (m + 1), afterHigh (m + 1), seqState (m + 1) 0 false] := by
    simp only [visited]
    rw [step_clean_start, step_clean_high, step_clean_low]
  have hpre2 : (run (m + 1) labels (initState (m + 1))
      [startInput (m + 1), quietInput (List.replicate (m + 1) true), gapInput (m + 1)]).1
      = seqState (m + 1) 0 false := by
    simp only [run]
    rw [step_clean_start, step_clean_high, step_clean_low]
  have hmid := seq_phase (m + 1) labels m false (by omega)
  have hend : visited (m + 1) labels (seqState (m + 1) m (if m = 0 then false else true))
      [pulseInput (m + 1) m, gapInput (m + 1)]
      = [succRun (m + 1) m, postRun (m + 1) m] := by
    simp only [visited]
    rw [step_clean_last_pulse (m + 1) m labels _ rfl, step_clean_post]
  have hsplit : cleanTrace (m + 1)
      = ([startInput (m + 1), quietInput (List.replicate (m + 1) true), gapInput (m + 1)]
          ++ (List.range m).flatMap (fun i => [pulseInput (m + 1) i, gapInput (m + 1)]))
        ++ [pulseInput (m + 1) m, gapInput (m + 1)] := by
    simp [cleanTrace, List.range_succ, List.flatMap_append]
  have hV : visited (m + 1) labels (initState (m + 1)) (cleanTrace (m + 1))
      = ([afterStart (m + 1), afterHigh (m + 1), seqState (m + 1) 0 false]
          ++ visited (m + 1) labels (seqState (m + 1) 0 false)
              ((List.range m).flatMap (fun i => [pulseInput (m + 1) i, gapInput (m + 1)])))
        ++ [succRun (m + 1) m, postRun (m + 1) m] := by
    rw [hsplit, visited_append, visited_append, hpre, hpre2, run_append_fst, hpre2,
        hmid.2, hend]
  rw [hV]
  constructor
  · rw [List.countP_append, List.countP_append]
    have h1 : ([afterStart (m + 1), afterHigh (m + 1),
        seqState (m + 1) 0 false]).countP
        (fun s => decide (s.state = TestState.success)) = 0 := by
      simp [afterStart, afterHigh, seqState, initState]
    have h2 : (visited (m + 1) labels (seqState (m + 1) 0 false)
        ((List.range m).flatMap (fun i => [pulseInput (m + 1) i, gapInput (m + 1)]))).countP
        (fun s => decide (s.state = TestState.success)) = 0 := by
      rw [List.countP_eq_zero]
      intro s hs
      have := hmid.1 s hs
      simp [this]
    have h3 : ([succRun (m + 1) m, postRun (m + 1) m]).countP
        (fun s => decide (s.state = TestState.success)) = 1 := by
      simp [succRun, postRun, midRun, seqState]
    omega
  · intro s hs hsucc
    rcases List.mem_append.mp hs with hs | hs
    · rcases List.mem_append.mp hs with hs | hs
      · simp only [List.mem_cons, List.not_mem_nil, or_false] at hs
        rcases hs with rfl | rfl | rfl
        · simp [afterStart, initState] at hsucc
        · simp [afterHigh, afterStart, initState] at hsucc
        · simp [seqState] at hsucc
      · have := hmid.1 s hs
        rw [this] at hsucc; simp at hsucc
    · simp only [List.mem_cons, List.not_mem_nil, or_false] at hs
      rcases hs with rfl | rfl
      · simp [succRun, midRun, seqState]
      · simp [postRun, midRun, seqState] at hsucc

end CnTester

namespace CnTester

open Master in
theorem c1_clean_run_reaches_success_witness :
    ((visited 3 ["a", "b", "c"] (initState 3) (cleanTrace 3)).countP
        (fun s => decide (s.state = TestState.success)) = 1) ∧
    (∀ s ∈ visited 3 ["a", "b", "c"] (initState 3) (cleanTrace 3),
      s.state = TestState.success → s.expectedIndex = 3) :=
  c1_clean_run_reaches_success 3 ["a", "b", "c"] (by decide)

end CnTester
